import Mathlib

/-!
Verification development for the LibreChat prompt-builder replica
(`benchmarks/librechat_prompt_builder.py`).

The Python module is a pure, synchronous prompt/conversation assembly engine.
This file gives a shallow embedding of its data model and operations:

* Python `str` is embedded as `String` (in this toolchain a `List Char`
  wrapper), f-string interpolation of integers as `natRepr` (the embedding of
  `str(n)` for naturals), `str.join` as `joinWith`, `str.strip()` as `pyStrip`.
* `re.sub(pattern, repl, text, flags=re.IGNORECASE)` with a literal pattern is
  embedded as `subCI`: left-to-right, non-overlapping, ASCII-case-insensitive
  literal replacement (the four patterns used by the module are ASCII).
* The ambient state a method of `LibreChatPromptBuilder` can observe — the
  constructor-fixed display name `self.user_name` and the wall clock consulted
  through `datetime.now()` — is made explicit as a `World` argument threaded
  through every method.  A moment `datetime.now()` is modelled by its observable
  fields (`DT`), including the native Python weekday number (0 = Monday).
* Python dicts with a fixed key set are embedded as structures whose fields are
  `Option`-valued exactly where the code uses `dict.get` with a default;
  JSON-compatible values (`ToolCall.arguments`) as the inductive `JVal`, with
  `json.dumps` embedded as `jsonDumps`.
* Floating-point relevance scores are embedded as `Rat`; the `"{:.2f}"`
  rendering is embedded as `fmt2` (fixed-point, two decimals).  No claim
  depends on the rounding of the binary doubles themselves.
* The only fallible operation, `build_request` on an unknown scenario tag
  (Python `raise ValueError`), returns `Except String PromptRequest`.
-/

/-- Embedding of a single decimal digit character, `str(d)` for `d < 10`. -/
def digitChar : Nat → Char
  | 0 => '0'
  | 1 => '1'
  | 2 => '2'
  | 3 => '3'
  | 4 => '4'
  | 5 => '5'
  | 6 => '6'
  | 7 => '7'
  | 8 => '8'
  | _ => '9'

/-- Fuel-bounded digit expansion of a natural number (most significant first). -/
def natReprAux : Nat → Nat → List Char
  | 0, _ => []
  | fuel + 1, n =>
    if n < 10 then [digitChar n]
    else natReprAux fuel (n / 10) ++ [digitChar (n % 10)]

/-- Embedding of Python `str(n)` for a natural number. -/
def natRepr (n : Nat) : String := ⟨natReprAux (n + 1) n⟩

/-- Zero padding to a minimum width, as in `strftime` field rendering. -/
def padZero (width : Nat) (n : Nat) : String :=
  let s := natRepr n
  if s.length < width then String.mk (List.replicate (width - s.length) '0') ++ s else s

/-- Embedding of Python `sep.join(parts)`. -/
def joinWith (sep : String) : List String → String
  | [] => ""
  | x :: xs => xs.foldl (fun acc y => acc ++ sep ++ y) x

/-- Embedding of Python `str.strip()` (whitespace from both ends). -/
def pyStrip (s : String) : String :=
  ⟨((s.data.dropWhile Char.isWhitespace).reverse.dropWhile Char.isWhitespace).reverse⟩

/-- Remove a literal pattern from the front of a character list, comparing
ASCII-case-insensitively; returns the remainder on success. -/
def stripMatchCI : List Char → List Char → Option (List Char)
  | [], s => some s
  | _ :: _, [] => none
  | p :: ps, c :: cs => if Char.toLower c = Char.toLower p then stripMatchCI ps cs else none

/-- Does a literal pattern occur anywhere in the text, case-insensitively? -/
def containsCI (pat : List Char) : List Char → Bool
  | [] => (stripMatchCI pat []).isSome
  | c :: cs => (stripMatchCI pat (c :: cs)).isSome || containsCI pat cs

/-- Fuel-bounded engine of case-insensitive literal replacement: scans left to
right, replacing non-overlapping occurrences, exactly as `re.sub` does with a
literal pattern.  One unit of fuel is spent per consumed character, so
`fuel = length of the text` is exact for the non-empty patterns used here. -/
def replaceCIFuel (pat repl : List Char) : Nat → List Char → List Char
  | 0, s => s
  | _ + 1, [] => []
  | fuel + 1, c :: cs =>
    match stripMatchCI pat (c :: cs) with
    | some rest => repl ++ replaceCIFuel pat repl fuel rest
    | none => c :: replaceCIFuel pat repl fuel cs

/-- Embedding of `re.sub(re.escape-style literal pat, repl, s, flags=IGNORECASE)`. -/
def subCI (pat repl s : String) : String :=
  ⟨replaceCIFuel pat.data repl.data s.data.length s.data⟩

/-- Observable fields of a Python `datetime` moment.  `weekday` is the value of
`datetime.weekday()`: native Python convention, 0 = Monday … 6 = Sunday. -/
structure DT where
  year : Nat
  month : Nat
  day : Nat
  hour : Nat
  minute : Nat
  second : Nat
  microsecond : Nat
  weekday : Nat

/-- The ambient state visible to a `LibreChatPromptBuilder` method: the
constructor-fixed `self.user_name` and the current wall-clock moment. -/
structure World where
  userName : String
  now : DT

/-- Embedding of `now.strftime("%Y-%m-%d")`. -/
def strfDate (dt : DT) : String :=
  padZero 4 dt.year ++ "-" ++ padZero 2 dt.month ++ "-" ++ padZero 2 dt.day

/-- Embedding of `now.strftime("%H:%M:%S")`. -/
def strfTime (dt : DT) : String :=
  padZero 2 dt.hour ++ ":" ++ padZero 2 dt.minute ++ ":" ++ padZero 2 dt.second

/-- Embedding of `now.isoformat()` for a naive datetime. -/
def isoFormat (dt : DT) : String :=
  strfDate dt ++ "T" ++ strfTime dt ++
    (if dt.microsecond = 0 then "" else "." ++ padZero 6 dt.microsecond)

/-- The JS-convention weekday computed by the code: `(weekday + 1) % 7`. -/
def jsWeekdayOf (dt : DT) : Nat := (dt.weekday + 1) % 7

/-- The local `current_date` value of `replace_special_vars`. -/
def currentDateText (w : World) : String :=
  strfDate w.now ++ " (" ++ natRepr (jsWeekdayOf w.now) ++ ")"

/-- The local `current_datetime` value of `replace_special_vars`. -/
def currentDatetimeText (w : World) : String :=
  strfDate w.now ++ " " ++ strfTime w.now ++ " (" ++ natRepr (jsWeekdayOf w.now) ++ ")"

/-- The literal regex pattern for the date token. -/
def currentDatePat : String := "\x7b\x7bcurrent_date\x7d\x7d"

/-- The literal regex pattern for the date-time token. -/
def currentDatetimePat : String := "\x7b\x7bcurrent_datetime\x7d\x7d"

/-- The literal regex pattern for the ISO-timestamp token. -/
def isoDatetimePat : String := "\x7b\x7biso_datetime\x7d\x7d"

/-- The literal regex pattern for the user-name token. -/
def currentUserPat : String := "\x7b\x7bcurrent_user\x7d\x7d"

/-- Embedding of `LibreChatPromptBuilder.replace_special_vars`. -/
def replace_special_vars (w : World) (text : String) : String :=
  if text = "" then text
  else
    let r1 := subCI currentDatePat (currentDateText w) text
    let r2 := subCI currentDatetimePat (currentDatetimeText w) r1
    let r3 := subCI isoDatetimePat (isoFormat w.now) r2
    subCI currentUserPat w.userName r3

/-- JSON-compatible values, the embedding of Python dict/list/str/int/bool
payloads (tool parameters and tool-call arguments). -/
inductive JVal where
  | jstr : String → JVal
  | jint : Int → JVal
  | jbool : Bool → JVal
  | jarr : List JVal → JVal
  | jobj : List (String × JVal) → JVal

/-- Hexadecimal digit for `\uXXXX` escapes. -/
def hexDigit (n : Nat) : Char :=
  if n < 10 then digitChar n
  else if n = 10 then 'a' else if n = 11 then 'b' else if n = 12 then 'c'
  else if n = 13 then 'd' else if n = 14 then 'e' else 'f'

/-- Four-digit hexadecimal rendering for `\uXXXX` escapes. -/
def hex4 (n : Nat) : String :=
  ⟨[hexDigit (n / 4096 % 16), hexDigit (n / 256 % 16), hexDigit (n / 16 % 16), hexDigit (n % 16)]⟩

/-- JSON string-character escaping as `json.dumps` performs it
(`ensure_ascii=True`: non-ASCII escaped, astral characters as surrogate pairs). -/
def escJsonChar (c : Char) : String :=
  if c = '"' then "\\\""
  else if c = '\\' then "\\\\"
  else if c = '\n' then "\\n"
  else if c = '\t' then "\\t"
  else if c = '\r' then "\\r"
  else if c = '\x08' then "\\b"
  else if c = '\x0c' then "\\f"
  else if c.toNat < 32 || c.toNat > 126 then
    if c.toNat ≥ 65536 then
      let v := c.toNat - 65536
      "\\u" ++ hex4 (55296 + v / 1024) ++ "\\u" ++ hex4 (56320 + v % 1024)
    else "\\u" ++ hex4 c.toNat
  else ⟨[c]⟩

/-- Rendering of a JSON string literal with escaping. -/
def jsonStrLit (s : String) : String :=
  "\"" ++ joinWith "" (s.data.map escJsonChar) ++ "\""

mutual

/-- Embedding of `json.dumps` with default separators. -/
def jsonDumps : JVal → String
  | .jstr s => jsonStrLit s
  | .jint n => if n < 0 then "-" ++ natRepr n.natAbs else natRepr n.toNat
  | .jbool b => if b then "true" else "false"
  | .jarr l => "[" ++ jsonDumpsList l ++ "]"
  | .jobj kvs => "\x7b" ++ jsonDumpsObj kvs ++ "\x7d"

/-- Comma-separated rendering of a JSON array body. -/
def jsonDumpsList : List JVal → String
  | [] => ""
  | [x] => jsonDumps x
  | x :: xs => jsonDumps x ++ ", " ++ jsonDumpsList xs

/-- Comma-separated rendering of a JSON object body. -/
def jsonDumpsObj : List (String × JVal) → String
  | [] => ""
  | [kv] => jsonStrLit kv.1 ++ ": " ++ jsonDumps kv.2
  | kv :: kvs => jsonStrLit kv.1 ++ ": " ++ jsonDumps kv.2 ++ ", " ++ jsonDumpsObj kvs

end

/-- Wire tool schema `function` record. -/
structure ToolFunctionDef where
  name : String
  description : String
  parameters : JVal

/-- Wire tool schema record `{"type": "function", "function": {...}}`. -/
structure ToolSchema where
  type : String
  function : ToolFunctionDef

/-- Configuration for an MCP server (`MCPServerConfig`). -/
structure MCPServerConfig where
  server_name : String
  instructions : String
  tools : List ToolSchema

/-- Configuration for a UI-defined agent (`AgentConfig`). -/
structure AgentConfig where
  name : String
  instructions : String
  additional_instructions : String
  tools : List String
  artifacts_enabled : Bool
  memory_enabled : Bool
  memory_data : String

/-- The Python `AgentConfig()` default value. -/
def defaultAgentConfig : AgentConfig :=
  { name := "Assistant", instructions := "", additional_instructions := "",
    tools := [], artifacts_enabled := false, memory_enabled := false, memory_data := "" }

/-- An attached-file dict; fields are read with `dict.get` and a default. -/
structure FileEntry where
  filename : Option String
  type : Option String
  just_attached : Option Bool

/-- A RAG context-item dict (`filename`, `content`). -/
structure CtxEntry where
  filename : Option String
  content : Option String

/-- A reference dict inside a web-search highlight (`{"url": ...}`). -/
structure RefEntry where
  url : Option String

/-- A highlight/excerpt from a web search result (`WebSearchHighlight`). -/
structure WebSearchHighlight where
  text : String
  score : Rat
  references : List RefEntry

/-- A single source from web search results (`WebSearchSource`). -/
structure WebSearchSource where
  title : String
  link : String
  snippet : String
  date : String
  attribution : String
  highlights : List WebSearchHighlight

/-- The knowledge-graph dict; `none` embeds the empty (falsy) dict. -/
structure KGRecord where
  title : Option String
  type : Option String
  description : Option String
  website : Option String

/-- The answer-box dict; `none` embeds the empty (falsy) dict. -/
structure ABRecord where
  title : Option String
  snippet : Option String
  link : Option String

/-- A people-also-ask entry dict. -/
structure PAAEntry where
  question : Option String
  snippet : Option String
  title : Option String
  link : Option String

/-- Complete web search result data (`WebSearchResult`). -/
structure WebSearchResult where
  organic : List WebSearchSource
  top_stories : List WebSearchSource
  knowledge_graph : Option KGRecord
  answer_box : Option ABRecord
  people_also_ask : List PAAEntry

/-- A single match from file search (`FileSearchMatch`). -/
structure FileSearchMatch where
  filename : String
  content : String
  page : String
  relevance : Rat

/-- File search result data (`FileSearchResult`). -/
structure FileSearchResult where
  «matches» : List FileSearchMatch

/-- An LLM tool call (`ToolCall`). -/
structure ToolCall where
  id : String
  name : String
  arguments : JVal

/-- The `function` part of a wire tool-call record; `arguments` is the
`json.dumps` serialization. -/
structure WireFunctionCall where
  name : String
  arguments : String

/-- A wire tool-call record `{"id", "type": "function", "function"}`. -/
structure WireToolCall where
  id : String
  type : String
  function : WireFunctionCall

/-- A conversation message dict.  `tool_calls` is present only on assistant
tool-call messages and `tool_call_id` only on tool messages; `none` embeds key
absence. -/
structure Message where
  role : String
  content : String
  tool_calls : Option (List WireToolCall)
  tool_call_id : Option String

/-- Complete prompt request ready for the LLM API (`PromptRequest`). -/
structure PromptRequest where
  system_prompt : String
  messages : List Message
  tools : List ToolSchema
  model : String
  temperature : Rat

/-- The `MEMORY_INSTRUCTIONS` class constant. -/
def MEMORY_INSTRUCTIONS : String :=
  "The system automatically stores important user information and can " ++
  "update or delete memories based on user requests, enabling dynamic " ++
  "memory management."

/-- The `FILE_SEARCH_BIAS` class constant. -/
def FILE_SEARCH_BIAS : String :=
  "When files are attached, ALWAYS call the file_search tool first to " ++
  "retrieve the most relevant passages. Call file_search MULTIPLE times " ++
  "with different queries to gather comprehensive information from various " ++
  "sections. Use the retrieved quotes to draft your answer and include " ++
  "citation anchors as instructed. Provide rich citations: use multiple " ++
  "references per paragraph when information comes from different sources."

/-- The `WEB_SEARCH_CONTEXT` class constant (byte-for-byte, including the
mis-encoded dash sequences present in the source file). -/
def WEB_SEARCH_CONTEXT : String :=
  "# `web_search` (WEB SEARCH) â€“ RULES\n" ++
  "\n" ++
  "YOU HAVE ACCESS TO A WEB SEARCH TOOL. FOLLOW THESE RULES STRICTLY:\n" ++
  "\n" ++
  "1. CALL THE TOOL INSTEAD OF DESCRIBING A SEARCH.\n" ++
  "   - Never write things like \"let\x27s search\", \"we should use web_search\" or raw JSON such as \x7b\x7b\"query\": \"...\"\x7d\x7d.\n" ++
  "   - When you decide that web search is needed, IMMEDIATELY call the `web_search` tool.\n" ++
  "\n" ++
  "2. HOW OFTEN TO USE IT\n" ++
  "   - At most **one tool call per user question** (unless the user explicitly asks for more searches).\n" ++
  "   - Do not call the tool again for the same question after you have results.\n" ++
  "\n" ++
  "3. HOW TO WRITE THE QUERY\n" ++
  "   - Use a short keyword query (3â€“6 words), not a full sentence.\n" ++
  "   - Example good queries:\n" ++
  "     - \"Rotterdam weather now\"\n" ++
  "     - \"Rotterdam hourly weather\"\n" ++
  "   - Avoid long natural language queries.\n" ++
  "\n" ++
  "4. AFTER THE TOOL RETURNS\n" ++
  "   - Read the provided \"output\" text and answer the user directly.\n" ++
  "   - Start with a clear answer, then explain details.\n" ++
  "   - Use citations that are already provided; do not invent new URLs.\n" ++
  "\n" ++
  "ANSWER IN THE USER\x27S LANGUAGE."

/-- Embedding of `LibreChatPromptBuilder.format_mcp_instructions`: one block per
server that has non-empty instructions. -/
def mcpServerBlock (s : MCPServerConfig) : String :=
  "## " ++ s.server_name ++ " MCP Server Instructions\n\n" ++ s.instructions

/-- Embedding of `format_mcp_instructions`. -/
def format_mcp_instructions (servers : List MCPServerConfig) : String :=
  let withInstr := servers.filter (fun s => s.instructions != "")
  if withInstr.isEmpty then ""
  else
    "# MCP Server Instructions\n\nThe following MCP servers are available with their specific instructions:\n\n"
    ++ joinWith "\n" (withInstr.map mcpServerBlock)
    ++ "\n\nPlease follow these instructions when using tools from the respective MCP servers."

/-- One `<file>` element of the RAG file listing. -/
def ragFileXml (f : FileEntry) : String :=
  "\n  <file>\n    <filename>" ++ f.filename.getD "unknown" ++ "</filename>\n    <type>"
    ++ f.type.getD "unknown" ++ "</type>\n  </file>"

/-- One `<file>` element of the RAG context listing. -/
def ragCtxXml (item : CtxEntry) : String :=
  "\n  <file>\n    <filename>" ++ item.filename.getD "unknown"
    ++ "</filename>\n    <context>\n      <contextItem>\n        <![CDATA["
    ++ item.content.getD "" ++ "]]>\n      </contextItem>\n    </context>\n  </file>"

/-- Embedding of `format_rag_context`. -/
def format_rag_context (files : List FileEntry) (context_items : List CtxEntry) : String :=
  if files.isEmpty then ""
  else
    let one_file := files.length == 1
    let header := "The user has attached " ++ (if one_file then "a" else natRepr files.length)
      ++ " file" ++ (if one_file then "" else "s") ++ " to the conversation:"
    let files_xml := (if one_file then "" else "\n<files>")
      ++ joinWith "" (files.map ragFileXml)
      ++ (if one_file then "" else "\n</files>")
    let context_xml := joinWith "" (context_items.map ragCtxXml)
    let footer := "Use the context as your learned knowledge to better answer the user.\n\nIn your response, remember to follow these guidelines:\n- If you don\x27t know the answer, simply say that you don\x27t know.\n- If you are unsure how to answer, ask for clarification.\n- Avoid mentioning that you obtained the information from the context."
    header ++ "\n" ++ files_xml
      ++ "\n\nA semantic search was executed with the user\x27s message as the query, retrieving the following context inside <context></context> XML tags.\n\n<context>"
      ++ context_xml ++ "\n</context>\n\n" ++ footer

/-- One file line of the file-search tool context. -/
def fileNoticeLine (f : FileEntry) : String :=
  "\n\t- " ++ f.filename.getD "unknown"
    ++ (if f.just_attached.getD false then " (just attached by user)" else "")

/-- Embedding of `format_file_search_context`. -/
def format_file_search_context (files : List FileEntry) : String :=
  if files.isEmpty then
    "- Note: Semantic search is available through the file_search tool but no files are currently loaded."
  else
    "- Note: Use the file_search tool to find relevant information within:"
      ++ joinWith "" (files.map fileNoticeLine)

/-- Embedding of `create_mcp_tool`: composite name `tool__mcp__server`. -/
def create_mcp_tool (tool_name server_name description : String) (parameters : JVal) : ToolSchema :=
  { type := "function",
    function := { name := tool_name ++ "__mcp__" ++ server_name,
                  description := description, parameters := parameters } }

/-- Embedding of `create_file_search_tool`. -/
def create_file_search_tool : ToolSchema :=
  { type := "function",
    function :=
      { name := "file_search",
        description := "Search through attached files to find relevant information.",
        parameters := .jobj
          [("type", .jstr "object"),
           ("properties", .jobj
             [("query", .jobj
               [("type", .jstr "string"),
                ("description", .jstr "The search query to find relevant content in files")])]),
           ("required", .jarr [.jstr "query"])] } }

/-- Embedding of `create_web_search_tool`. -/
def create_web_search_tool : ToolSchema :=
  { type := "function",
    function :=
      { name := "web_search",
        description := "Search the web for current information. Returns relevant web pages with snippets.",
        parameters := .jobj
          [("type", .jstr "object"),
           ("properties", .jobj
             [("query", .jobj
               [("type", .jstr "string"),
                ("description", .jstr "The search query (3-6 keywords recommended)")])]),
           ("required", .jarr [.jstr "query"])] } }

/-- Fixed-point two-decimal rendering, the embedding of `"{:.2f}".format`
(rounding of the underlying binary double is abstracted to rational rounding). -/
def fmt2 (q : Rat) : String :=
  let c : Int := ⌊q * 100 + 1 / 2⌋
  if c < 0 then "-" ++ natRepr (c.natAbs / 100) ++ "." ++ padZero 2 (c.natAbs % 100)
  else natRepr (c.toNat / 100) ++ "." ++ padZero 2 (c.toNat % 100)

/-- Embedding of Python `enumerate(l, start)`. -/
def enumFromN (n : Nat) : List α → List (Nat × α)
  | [] => []
  | a :: as => (n, a) :: enumFromN (n + 1) as

/-- The three lines appended by the local `add_section` helper. -/
def sectionLines (title : String) : List String :=
  ["", "=== " ++ title ++ " ===", ""]

/-- A conditionally emitted `label: value` line for a dict field (emitted only
when the field is present and truthy). -/
def optFieldLine (label : String) (v : Option String) : List String :=
  match v with
  | some s => if s = "" then [] else [label ++ s]
  | none => []

/-- The two lines of one highlight reference. -/
def refLines (turn : Nat) (p : Nat × RefEntry) : List String :=
  ["- link#" ++ natRepr (p.1 + 1) ++ ": " ++ p.2.url.getD "",
   "\t- Anchor: \\ue202turn" ++ natRepr turn ++ "ref" ++ natRepr p.1]

/-- The lines of one highlight block (`total` is the number of highlights of
the enclosing source, used for the separator rule). -/
def highlightLines (turn total : Nat) (p : Nat × WebSearchHighlight) : List String :=
  ["### Highlight " ++ natRepr (p.1 + 1) ++ " [Relevance: " ++ fmt2 p.2.score ++ "]",
   "", "```text", pyStrip p.2.text, "```", ""]
  ++ (if p.2.references.isEmpty then []
      else ["Core References:"]
        ++ ((enumFromN 0 p.2.references).map (refLines turn)).join ++ [""])
  ++ (if p.1 < total - 1 then ["---", ""] else [])

/-- The lines of the `## Highlights` block of one organic source. -/
def highlightsBlock (turn : Nat) (hs : List WebSearchHighlight) : List String :=
  ["\n## Highlights", ""] ++ ((enumFromN 0 hs).map (highlightLines turn hs.length)).join

/-- The lines of one organic result item, anchor `turn{turn}search{i}`. -/
def organicItemLines (turn : Nat) (p : Nat × WebSearchSource) : List String :=
  ["# Search " ++ natRepr p.1 ++ ": \"" ++ (if p.2.title = "" then "(no title)" else p.2.title) ++ "\"",
   "\nAnchor: \\ue202turn" ++ natRepr turn ++ "search" ++ natRepr p.1,
   "URL: " ++ p.2.link]
  ++ (if p.2.snippet = "" then [] else ["Summary: " ++ p.2.snippet])
  ++ (if p.2.date = "" then [] else ["Date: " ++ p.2.date])
  ++ (if p.2.attribution = "" then [] else ["Source: " ++ p.2.attribution])
  ++ (if p.2.highlights.isEmpty then [] else highlightsBlock turn p.2.highlights)
  ++ [""]

/-- The lines of one news/top-stories item, anchor `turn{turn}news{i}`. -/
def newsItemLines (turn : Nat) (p : Nat × WebSearchSource) : List String :=
  ["# News " ++ natRepr p.1 ++ ": \"" ++ (if p.2.title = "" then "(no title)" else p.2.title) ++ "\"",
   "\nAnchor: \\ue202turn" ++ natRepr turn ++ "news" ++ natRepr p.1,
   "URL: " ++ p.2.link]
  ++ (if p.2.snippet = "" then [] else ["Summary: " ++ p.2.snippet])
  ++ (if p.2.date = "" then [] else ["Date: " ++ p.2.date])
  ++ (if p.2.attribution = "" then [] else ["Source: " ++ p.2.attribution])
  ++ [""]

/-- The lines of the knowledge-graph section. -/
def kgSectionLines (okg : Option KGRecord) : List String :=
  match okg with
  | none => []
  | some kg =>
    sectionLines "Knowledge Graph"
      ++ optFieldLine "**Title:** " kg.title
      ++ optFieldLine "**Type:** " kg.type
      ++ optFieldLine "**Description:** " kg.description
      ++ optFieldLine "**Website:** " kg.website
      ++ [""]

/-- The lines of the answer-box section. -/
def abSectionLines (oab : Option ABRecord) : List String :=
  match oab with
  | none => []
  | some ab =>
    sectionLines "Answer Box"
      ++ optFieldLine "**Title:** " ab.title
      ++ optFieldLine "**Snippet:** " ab.snippet
      ++ optFieldLine "**Link:** " ab.link
      ++ [""]

/-- The lines of one people-also-ask block. -/
def paaBlockLines (p : Nat × PAAEntry) : List String :=
  ["### Question " ++ natRepr (p.1 + 1) ++ ":",
   "\"" ++ p.2.question.getD "" ++ "\""]
  ++ optFieldLine "Snippet: " p.2.snippet
  ++ optFieldLine "Title: " p.2.title
  ++ optFieldLine "Link: " p.2.link
  ++ [""]

/-- The complete `output_lines` list built by `format_web_search_result`. -/
def webSearchOutputLines (turn : Nat) (r : WebSearchResult) : List String :=
  (if r.organic.isEmpty then []
   else sectionLines ("Web Results, Turn " ++ natRepr turn)
     ++ ((enumFromN 0 r.organic).map (organicItemLines turn)).join)
  ++ (if r.top_stories.isEmpty then []
      else sectionLines "News Results"
        ++ ((enumFromN 0 r.top_stories).map (newsItemLines turn)).join)
  ++ kgSectionLines r.knowledge_graph
  ++ abSectionLines r.answer_box
  ++ (if r.people_also_ask.isEmpty then []
      else sectionLines "People Also Ask"
        ++ ((enumFromN 0 r.people_also_ask).map paaBlockLines).join)

/-- Embedding of `LibreChatPromptBuilder.format_web_search_result`.  The
`World` argument is the ambient state the method could observe through `self`
and the clock; the body never consults it. -/
def format_web_search_result (w : World) (turn : Nat) (r : WebSearchResult) : String :=
  pyStrip (joinWith "\n" (webSearchOutputLines turn r))

/-- The lines of one file-search match block. -/
def fileMatchLines (p : Nat × FileSearchMatch) : List String :=
  ["[" ++ natRepr p.1 ++ "] From: " ++ p.2.filename
     ++ (if p.2.page = "" then "" else " (page " ++ p.2.page ++ ")"),
   "Relevance: " ++ fmt2 p.2.relevance,
   "\"" ++ p.2.content ++ "\"",
   ""]

/-- Embedding of `format_file_search_result`. -/
def format_file_search_result (result : FileSearchResult) : String :=
  if result.«matches».isEmpty then "No relevant passages found in the attached files."
  else
    pyStrip (joinWith "\n"
      (["Found " ++ natRepr result.«matches».length ++ " relevant passages:", ""]
        ++ ((enumFromN 1 result.«matches»).map fileMatchLines).join))

/-- Embedding of `format_mcp_tool_result` (identity pass-through on text). -/
def format_mcp_tool_result (content : String) (tool_name : String) : String :=
  content

/-- Embedding of `create_tool_result_message`. -/
def create_tool_result_message (tool_call_id content : String) : Message :=
  { role := "tool", content := content, tool_calls := none, tool_call_id := some tool_call_id }

/-- Embedding of `create_assistant_tool_call_message`. -/
def create_assistant_tool_call_message (tool_calls : List ToolCall) (content : String) : Message :=
  { role := "assistant", content := content,
    tool_calls := some (tool_calls.map fun tc =>
      { id := tc.id, type := "function",
        function := { name := tc.name, arguments := jsonDumps tc.arguments } }),
    tool_call_id := none }

/-- The payload of a `{"tool_result": {...}}` directive. -/
structure ToolResultDirective where
  tool_call_id : String
  content : String

/-- A turn-directive dict for `build_multi_turn_request`; `none` embeds key
absence.  The three recognized shapes are `tool_calls`, `tool_result` and
`assistant` (checked in that order, as the Python `if`/`elif` chain does);
`content` is the optional accompanying text of a `tool_calls` directive. -/
structure TurnDirective where
  tool_calls : Option (List ToolCall)
  content : Option String
  tool_result : Option ToolResultDirective
  assistant : Option String

/-- The message appended for one turn directive, `none` for an unrecognized
shape (the loop body of `build_multi_turn_request`). -/
def turnMessage (t : TurnDirective) : Option Message :=
  match t.tool_calls with
  | some tcs => some (create_assistant_tool_call_message tcs (t.content.getD ""))
  | none =>
    match t.tool_result with
    | some tr => some (create_tool_result_message tr.tool_call_id tr.content)
    | none =>
      match t.assistant with
      | some s => some { role := "assistant", content := s, tool_calls := none, tool_call_id := none }
      | none => none

/-- Embedding of `build_multi_turn_request`: copy the initial message list and
append per directive, sharing every other field of the initial request. -/
def build_multi_turn_request (initial_request : PromptRequest) (turns : List TurnDirective) : PromptRequest :=
  { system_prompt := initial_request.system_prompt,
    messages := turns.foldl
      (fun ms t => match turnMessage t with | some m => ms ++ [m] | none => ms)
      initial_request.messages,
    tools := initial_request.tools,
    model := initial_request.model,
    temperature := initial_request.temperature }

/-- Embedding of `build_files_prompt` (scenario 1: attaching files). -/
def build_files_prompt (w : World) (user_message : String) (files : List FileEntry)
    (rag_context_items : Option (List CtxEntry)) (agent_instructions : String)
    (model : String) (temperature : Rat) : PromptRequest :=
  let components : List String :=
    [FILE_SEARCH_BIAS]
    ++ (match rag_context_items with
        | some items => if items.isEmpty then [] else [format_rag_context files items]
        | none => [])
    ++ (if agent_instructions = "" then [] else [replace_special_vars w agent_instructions])
    ++ [format_file_search_context files]
  let system_prompt := joinWith "\n\n" (components.filter (fun s => s != ""))
  { system_prompt := system_prompt,
    messages :=
      [{ role := "system", content := system_prompt, tool_calls := none, tool_call_id := none },
       { role := "user", content := user_message, tool_calls := none, tool_call_id := none }],
    tools := [create_file_search_tool],
    model := model, temperature := temperature }

/-- Embedding of `build_mcp_prompt` (scenario 2: MCP tools). -/
def build_mcp_prompt (w : World) (user_message : String) (mcp_servers : List MCPServerConfig)
    (agent_instructions : String) (model : String) (temperature : Rat) : PromptRequest :=
  let mcp_instructions := format_mcp_instructions mcp_servers
  let components : List String :=
    (if agent_instructions = "" then [] else [replace_special_vars w agent_instructions])
    ++ (if mcp_instructions = "" then [] else [mcp_instructions])
  let system_prompt := joinWith "\n\n" (components.filter (fun s => s != ""))
  { system_prompt := system_prompt,
    messages :=
      [{ role := "system", content := system_prompt, tool_calls := none, tool_call_id := none },
       { role := "user", content := user_message, tool_calls := none, tool_call_id := none }],
    tools := (mcp_servers.map (fun s => s.tools)).join,
    model := model, temperature := temperature }

/-- Embedding of `build_web_search_prompt` (scenario 3: web search).  The
`custom_web_search_context or self.WEB_SEARCH_CONTEXT` coalescing of Python
maps `none` and the empty string to the built-in policy text. -/
def build_web_search_prompt (w : World) (user_message : String) (agent_instructions : String)
    (custom_web_search_context : Option String) (model : String) (temperature : Rat) : PromptRequest :=
  let components : List String :=
    (if agent_instructions = "" then [] else [replace_special_vars w agent_instructions])
  let web_context :=
    match custom_web_search_context with
    | some s => if s = "" then WEB_SEARCH_CONTEXT else s
    | none => WEB_SEARCH_CONTEXT
  let components := components ++ [web_context]
  let system_prompt := joinWith "\n\n" (components.filter (fun s => s != ""))
  { system_prompt := system_prompt,
    messages :=
      [{ role := "system", content := system_prompt, tool_calls := none, tool_call_id := none },
       { role := "user", content := user_message, tool_calls := none, tool_call_id := none }],
    tools := [create_web_search_tool],
    model := model, temperature := temperature }

/-- Embedding of `build_ui_agent_prompt` (scenario 4: UI-defined agents). -/
def build_ui_agent_prompt (w : World) (user_message : String) (agent : AgentConfig)
    (files : Option (List FileEntry)) (rag_context_items : Option (List CtxEntry))
    (mcp_servers : Option (List MCPServerConfig)) (web_search_enabled : Bool)
    (model : String) (temperature : Rat) : PromptRequest :=
  let has_file_search := agent.tools.contains "file_search"
  let has_files := match files with | some fs => !fs.isEmpty | none => false
  let fileList := files.getD []
  let fsFired := has_file_search && has_files
  let wsFired := web_search_enabled || agent.tools.contains "web_search"
  let tool_contexts : List String :=
    (if fsFired then [format_file_search_context fileList] else [])
    ++ (if wsFired then [WEB_SEARCH_CONTEXT] else [])
  let ragTruthy := match rag_context_items with | some items => !items.isEmpty | none => false
  let mcpTruthy := match mcp_servers with | some ss => !ss.isEmpty | none => false
  let mcp_instructions := format_mcp_instructions (mcp_servers.getD [])
  let components : List String :=
    (if tool_contexts.isEmpty then [] else [joinWith "\n\n" tool_contexts])
    ++ (if has_files && has_file_search then [FILE_SEARCH_BIAS] else [])
    ++ (if ragTruthy && has_files then [format_rag_context fileList (rag_context_items.getD [])] else [])
    ++ (if agent.instructions = "" then [] else [replace_special_vars w agent.instructions])
    ++ (if agent.additional_instructions = "" then [] else [agent.additional_instructions])
    ++ (if mcpTruthy then (if mcp_instructions = "" then [] else [mcp_instructions]) else [])
    ++ (if agent.memory_enabled && agent.memory_data != "" then
          [MEMORY_INSTRUCTIONS ++ "\n\n# Existing memory about the user:\n" ++ agent.memory_data]
        else [])
  let tools : List ToolSchema :=
    (if fsFired then [create_file_search_tool] else [])
    ++ (if wsFired then [create_web_search_tool] else [])
    ++ (if mcpTruthy then ((mcp_servers.getD []).map (fun s => s.tools)).join else [])
  let system_prompt := joinWith "\n\n" (components.filter (fun s => s != ""))
  { system_prompt := system_prompt,
    messages :=
      [{ role := "system", content := system_prompt, tool_calls := none, tool_call_id := none },
       { role := "user", content := user_message, tool_calls := none, tool_call_id := none }],
    tools := tools,
    model := model, temperature := temperature }

/-- The `**config` keyword arguments of `build_request`; `none` embeds an
absent key, mirroring each `config.get` call. -/
structure ScenarioConfig where
  files : Option (List FileEntry)
  rag_context_items : Option (List CtxEntry)
  agent_instructions : Option String
  mcp_servers : Option (List MCPServerConfig)
  custom_web_search_context : Option String
  agent : Option AgentConfig
  web_search_enabled : Option Bool

/-- Embedding of `build_request`: dispatch on the scenario tag, `ValueError`
on an unknown tag embedded as `Except.error`. -/
def build_request (w : World) (scenario : String) (user_message : String)
    (model : String) (temperature : Rat) (config : ScenarioConfig) :
    Except String PromptRequest :=
  if scenario = "files" then
    .ok (build_files_prompt w user_message (config.files.getD [])
      config.rag_context_items (config.agent_instructions.getD "") model temperature)
  else if scenario = "mcp" then
    .ok (build_mcp_prompt w user_message (config.mcp_servers.getD [])
      (config.agent_instructions.getD "") model temperature)
  else if scenario = "web_search" then
    .ok (build_web_search_prompt w user_message (config.agent_instructions.getD "")
      config.custom_web_search_context model temperature)
  else if scenario = "ui_agent" then
    .ok (build_ui_agent_prompt w user_message (config.agent.getD defaultAgentConfig)
      config.files config.rag_context_items config.mcp_servers
      (config.web_search_enabled.getD false) model temperature)
  else .error ("Unknown scenario: " ++ scenario)

/-- Replacement on an empty text is empty, for any fuel. -/
theorem replaceCIFuel_nil (pat repl : List Char) (n : Nat) :
    replaceCIFuel pat repl n [] = [] := by
  cases n <;> rfl

/-- Unfolding a failed containment check at a cons cell. -/
theorem not_contains_head {pat : List Char} {c : Char} {cs : List Char}
    (h : containsCI pat (c :: cs) = false) :
    stripMatchCI pat (c :: cs) = none ∧ containsCI pat cs = false := by
  have h' : ((stripMatchCI pat (c :: cs)).isSome || containsCI pat cs) = false := h
  cases hx : stripMatchCI pat (c :: cs) with
  | some r => rw [hx] at h'; simp at h'
  | none =>
    rw [hx] at h'
    simp only [Option.isSome_none, Bool.false_or] at h'
    exact ⟨rfl, h'⟩

/-- A text without any case-insensitive occurrence of the pattern is returned
unchanged by the replacement engine. -/
theorem replaceCIFuel_of_not_contains (pat repl : List Char) :
    ∀ (n : Nat) (s : List Char), containsCI pat s = false → replaceCIFuel pat repl n s = s := by
  intro n
  induction n with
  | zero => intro s _; rfl
  | succ m ih =>
    intro s h
    cases s with
    | nil => rfl
    | cons c cs =>
      obtain ⟨h1, h2⟩ := not_contains_head h
      simp only [replaceCIFuel, h1]
      rw [ih cs h2]

/-- `subCI` is the identity when the pattern does not occur. -/
theorem subCI_of_not_contains (pat repl s : String)
    (h : containsCI pat.data s.data = false) : subCI pat repl s = s := by
  unfold subCI
  rw [replaceCIFuel_of_not_contains pat.data repl.data s.data.length s.data h]

/-- When the whole text is exactly one occurrence of the pattern, `subCI`
returns the replacement. -/
theorem subCI_whole (pat repl s : String) {c : Char} {cs : List Char}
    (hs : s.data = c :: cs) (h : stripMatchCI pat.data s.data = some []) :
    subCI pat repl s = repl := by
  unfold subCI
  rw [hs] at h
  rw [hs]
  simp only [List.length_cons, replaceCIFuel, h, replaceCIFuel_nil, List.append_nil]

/-- A string none of whose characters lower-cases to an opening brace. -/
def braceFree (s : String) : Prop := ∀ c ∈ s.data, Char.toLower c ≠ '\x7b'

instance braceFreeDecidable (s : String) : Decidable (braceFree s) :=
  List.decidableBAll (fun c => Char.toLower c ≠ '\x7b') s.data

/-- Concatenation preserves brace-freedom. -/
theorem braceFree_append {a b : String} (ha : braceFree a) (hb : braceFree b) :
    braceFree (a ++ b) := by
  intro c hc
  rw [String.data_append] at hc
  rcases List.mem_append.mp hc with h | h
  · exact ha c h
  · exact hb c h

/-- Digit characters are brace-free. -/
theorem toLower_digitChar_ne (d : Nat) : Char.toLower (digitChar d) ≠ '\x7b' := by
  rcases d with _ | _ | _ | _ | _ | _ | _ | _ | _ | d
  all_goals first
    | decide
    | exact (by decide : Char.toLower '9' ≠ '\x7b')

/-- Every character emitted by the digit expansion is brace-free. -/
theorem braceFree_natReprAux :
    ∀ (fuel n : Nat) (c : Char), c ∈ natReprAux fuel n → Char.toLower c ≠ '\x7b' := by
  intro fuel
  induction fuel with
  | zero => intro n c hc; simp [natReprAux] at hc
  | succ m ih =>
    intro n c hc
    simp only [natReprAux] at hc
    by_cases hn : n < 10
    · rw [if_pos hn] at hc
      simp only [List.mem_singleton] at hc
      subst hc
      exact toLower_digitChar_ne n
    · rw [if_neg hn] at hc
      rcases List.mem_append.mp hc with h | h
      · exact ih _ c h
      · simp only [List.mem_singleton] at h
        subst h
        exact toLower_digitChar_ne _

/-- `natRepr` output is brace-free. -/
theorem braceFree_natRepr (n : Nat) : braceFree (natRepr n) :=
  fun c hc => braceFree_natReprAux _ _ c hc

/-- `padZero` output is brace-free. -/
theorem braceFree_padZero (width n : Nat) : braceFree (padZero width n) := by
  simp only [padZero]
  split
  · intro c hc
    rw [String.data_append] at hc
    rcases List.mem_append.mp hc with h | h
    · have hc0 : c = '0' := List.eq_of_mem_replicate h
      subst hc0
      decide
    · exact braceFree_natRepr n c h
  · exact braceFree_natRepr n

/-- The rendered date is brace-free. -/
theorem braceFree_strfDate (dt : DT) : braceFree (strfDate dt) := by
  unfold strfDate
  exact braceFree_append (braceFree_append (braceFree_append
    (braceFree_append (braceFree_padZero 4 dt.year) (by decide))
    (braceFree_padZero 2 dt.month)) (by decide)) (braceFree_padZero 2 dt.day)

/-- The rendered time is brace-free. -/
theorem braceFree_strfTime (dt : DT) : braceFree (strfTime dt) := by
  unfold strfTime
  exact braceFree_append (braceFree_append (braceFree_append
    (braceFree_append (braceFree_padZero 2 dt.hour) (by decide))
    (braceFree_padZero 2 dt.minute)) (by decide)) (braceFree_padZero 2 dt.second)

/-- The `current_date` value is brace-free. -/
theorem braceFree_currentDateText (w : World) : braceFree (currentDateText w) := by
  unfold currentDateText
  exact braceFree_append (braceFree_append (braceFree_append
    (braceFree_strfDate w.now) (by decide)) (braceFree_natRepr _)) (by decide)

/-- The `current_datetime` value is brace-free. -/
theorem braceFree_currentDatetimeText (w : World) : braceFree (currentDatetimeText w) := by
  unfold currentDatetimeText
  exact braceFree_append (braceFree_append (braceFree_append (braceFree_append
    (braceFree_append (braceFree_strfDate w.now) (by decide)) (braceFree_strfTime w.now))
    (by decide)) (braceFree_natRepr _)) (by decide)

/-- A pattern starting with an opening brace never matches inside a brace-free
text. -/
theorem containsCI_brace_head (ps : List Char) :
    ∀ s : List Char, (∀ c ∈ s, Char.toLower c ≠ '\x7b') →
      containsCI ('\x7b' :: ps) s = false := by
  intro s
  induction s with
  | nil => intro _; rfl
  | cons c cs ih =>
    intro h
    have hc : Char.toLower c ≠ '\x7b' := h c (by simp)
    have hstrip : stripMatchCI ('\x7b' :: ps) (c :: cs) = none := by
      simp only [stripMatchCI]
      rw [if_neg]
      intro he
      exact hc (by rw [he]; decide)
    simp only [containsCI, hstrip, Option.isSome_none, Bool.false_or]
    exact ih (fun d hd => h d (by simp [hd]))

/-- `subCI` with a brace-led pattern is the identity on brace-free texts. -/
theorem subCI_braceFree (pat repl s : String) {ps : List Char}
    (hpat : pat.data = '\x7b' :: ps) (hs : braceFree s) : subCI pat repl s = s := by
  apply subCI_of_not_contains
  rw [hpat]
  exact containsCI_brace_head ps s.data hs

/-- The message-appending loop of `build_multi_turn_request` appends exactly
the messages of the recognized directives, in order. -/
theorem foldl_turnMessages (turns : List TurnDirective) :
    ∀ ms : List Message,
      turns.foldl (fun ms t => match turnMessage t with | some m => ms ++ [m] | none => ms) ms
        = ms ++ turns.filterMap turnMessage := by
  induction turns with
  | nil => intro ms; simp
  | cons t ts ih =>
    intro ms
    simp only [List.foldl_cons, List.filterMap_cons]
    cases ht : turnMessage t with
    | none => simp only [ht]; exact ih ms
    | some m => simp only [ht]; rw [ih]; simp

/-- An indexed element's block sits somewhere inside the flattened enumeration. -/
theorem join_map_enumFromN {α β : Type} (g : Nat × α → List β) :
    ∀ (l : List α) (n i : Nat) (h : i < l.length),
      ∃ pre post, ((enumFromN n l).map g).join = pre ++ g (n + i, l.get ⟨i, h⟩) ++ post := by
  intro l
  induction l with
  | nil => intro n i h; exact absurd h (by simp)
  | cons a as ih =>
    intro n i h
    cases i with
    | zero =>
      exact ⟨[], ((enumFromN (n + 1) as).map g).join, by simp [enumFromN]⟩
    | succ j =>
      have hj : j < as.length := by simpa using h
      obtain ⟨pre, post, hp⟩ := ih (n + 1) j hj
      have hidx : n + 1 + j = n + (j + 1) := by omega
      rw [hidx] at hp
      refine ⟨g (n, a) ++ pre, post, ?_⟩
      simp only [enumFromN, List.map_cons, List.join_cons, hp, List.get_cons_succ]
      simp [List.append_assoc]

/-- Lifting an affix through a right append. -/
theorem affix_append_right {α : Type} {L : List α} (M B : List α)
    (h : ∃ u v, L = u ++ B ++ v) : ∃ u v, L ++ M = u ++ B ++ v := by
  obtain ⟨u, v, rfl⟩ := h
  exact ⟨u, v ++ M, by simp⟩

/-- Lifting an affix through a left append. -/
theorem affix_append_left {α : Type} {L : List α} (M B : List α)
    (h : ∃ u v, L = u ++ B ++ v) : ∃ u v, M ++ L = u ++ B ++ v := by
  obtain ⟨u, v, rfl⟩ := h
  exact ⟨M ++ u, v, by simp⟩

/-- A block that starts with two known cells yields those cells as a
consecutive pair somewhere in the list. -/
theorem affix_pair_of_block {α : Type} {L B : List α} {x y : α} {tail : List α}
    (hB : B = x :: y :: tail) (h : ∃ u v, L = u ++ B ++ v) :
    ∃ pre post, L = pre ++ [x, y] ++ post := by
  obtain ⟨u, v, rfl⟩ := h
  subst hB
  exact ⟨u, tail ++ v, by simp⟩

/-- C2: `build_multi_turn_request` returns a descriptor sharing the input's
system text, tool list, model identifier and temperature, whose message list is
the input's message list followed by exactly one appended message per
recognized directive, in the supplied order (`List.filterMap turnMessage`).
The input descriptor is a pure value in this embedding, so it is unmutated by
construction; the Python code copies the message list before appending. -/
theorem multi_turn_extension_frame (initial_request : PromptRequest) (turns : List TurnDirective) :
    (build_multi_turn_request initial_request turns).system_prompt = initial_request.system_prompt ∧
    (build_multi_turn_request initial_request turns).tools = initial_request.tools ∧
    (build_multi_turn_request initial_request turns).model = initial_request.model ∧
    (build_multi_turn_request initial_request turns).temperature = initial_request.temperature ∧
    (build_multi_turn_request initial_request turns).messages =
      initial_request.messages ++ turns.filterMap turnMessage :=
  ⟨rfl, rfl, rfl, rfl, foldl_turnMessages turns initial_request.messages⟩

/-- C3: `format_web_search_result` is a pure function of the turn number and
the structured result: its output is independent of the ambient state (clock
moment and configured user name), so formatting the same result with the same
turn number twice — even at different moments — yields byte-identical text. -/
theorem format_web_search_result_pure (w₁ w₂ : World) (turn : Nat) (r : WebSearchResult) :
    format_web_search_result w₁ turn r = format_web_search_result w₂ turn r := rfl

/-- C5: for every scenario tag outside the closed set of four recognized tags,
`build_request` fails synchronously with a configuration error naming the tag,
and returns no (partial) descriptor. -/
theorem unknown_scenario_error (w : World) (scenario user_message model : String)
    (temperature : Rat) (config : ScenarioConfig)
    (h : scenario ∉ ["files", "mcp", "web_search", "ui_agent"]) :
    build_request w scenario user_message model temperature config =
      .error ("Unknown scenario: " ++ scenario) := by
  simp only [List.mem_cons, List.mem_singleton, List.not_mem_nil, or_false, not_or] at h
  obtain ⟨h1, h2, h3, h4⟩ := h
  simp [build_request, h1, h2, h3, h4]

/-- A concrete world for witness instantiations. -/
def W0 : World :=
  { userName := "User",
    now := { year := 2026, month := 10, day := 12, hour := 0, minute := 0,
             second := 0, microsecond := 0, weekday := 0 } }

/-- A configuration with every keyword argument absent. -/
def emptyScenarioConfig : ScenarioConfig :=
  { files := none, rag_context_items := none, agent_instructions := none,
    mcp_servers := none, custom_web_search_context := none, agent := none,
    web_search_enabled := none }

/-- Witness for C5 at the concrete unknown tag `"bogus"`. -/
theorem unknown_scenario_error_witness :
    build_request W0 "bogus" "hi" "gpt-4" (7 / 10) emptyScenarioConfig =
      .error ("Unknown scenario: " ++ "bogus") :=
  unknown_scenario_error W0 "bogus" "hi" "gpt-4" (7 / 10) emptyScenarioConfig (by decide)

/-- C6: a directive matching none of the three recognized shapes contributes no
message, and the surrounding directives are processed exactly as if it were not
there (silent ignore, no error). -/
theorem malformed_directive_ignored (initial_request : PromptRequest)
    (pre post : List TurnDirective) (t : TurnDirective)
    (h1 : t.tool_calls = none) (h2 : t.tool_result = none) (h3 : t.assistant = none) :
    build_multi_turn_request initial_request (pre ++ t :: post) =
      build_multi_turn_request initial_request (pre ++ post) := by
  have hm : turnMessage t = none := by
    simp only [turnMessage, h1, h2, h3]
  unfold build_multi_turn_request
  rw [foldl_turnMessages (pre ++ t :: post) initial_request.messages,
      foldl_turnMessages (pre ++ post) initial_request.messages]
  simp [List.filterMap_append, List.filterMap_cons, hm]

/-- A concrete initial request for the C6 witness. -/
def R6 : PromptRequest :=
  { system_prompt := "s",
    messages :=
      [{ role := "system", content := "s", tool_calls := none, tool_call_id := none },
       { role := "user", content := "u", tool_calls := none, tool_call_id := none }],
    tools := [], model := "gpt-4", temperature := 7 / 10 }

/-- A concrete directive matching none of the three recognized shapes. -/
def T6 : TurnDirective :=
  { tool_calls := none, content := some "junk", tool_result := none, assistant := none }

/-- Witness for C6: the malformed directive `T6` is skipped. -/
theorem malformed_directive_ignored_witness :
    build_multi_turn_request R6 ([] ++ T6 :: []) = build_multi_turn_request R6 ([] ++ []) :=
  malformed_directive_ignored R6 [] [] T6 rfl rfl rfl

/-- C8: the web-search scenario with no primary instructions and no override
policy yields a system text exactly equal to the built-in policy text (no
leading blank section), and a tool list of length one whose single tool is
named `web_search`. -/
theorem web_search_default_prompt (w : World) (user_message model : String) (temperature : Rat) :
    (build_web_search_prompt w user_message "" none model temperature).system_prompt =
      WEB_SEARCH_CONTEXT ∧
    (build_web_search_prompt w user_message "" none model temperature).tools.map
        (fun t => t.function.name) = ["web_search"] :=
  ⟨rfl, rfl⟩

/-- C10: a caller-supplied override policy equal to the empty string is
coalesced to absent by the `or`-coalescing, so the built-in web-search policy
text is used and the result is identical to supplying no override. -/
theorem empty_override_coalesced (w : World) (user_message agent_instructions model : String)
    (temperature : Rat) :
    build_web_search_prompt w user_message agent_instructions (some "") model temperature =
      build_web_search_prompt w user_message agent_instructions none model temperature := rfl

/-- C4: for each of the four recognized scenario tags, the freshly built
descriptor's message list is exactly `[system, user]`: a system message
carrying the assembled system instruction text followed by a user message
carrying the supplied user message. -/
theorem fresh_request_messages_shape (w : World) (scenario user_message model : String)
    (temperature : Rat) (config : ScenarioConfig)
    (h : scenario ∈ ["files", "mcp", "web_search", "ui_agent"]) :
    ∃ r : PromptRequest,
      build_request w scenario user_message model temperature config = .ok r ∧
      r.messages =
        [{ role := "system", content := r.system_prompt, tool_calls := none, tool_call_id := none },
         { role := "user", content := user_message, tool_calls := none, tool_call_id := none }] := by
  simp only [List.mem_cons, List.mem_singleton, List.not_mem_nil, or_false] at h
  rcases h with rfl | rfl | rfl | rfl
  · exact ⟨_, rfl, rfl⟩
  · exact ⟨_, rfl, rfl⟩
  · exact ⟨_, rfl, rfl⟩
  · exact ⟨_, rfl, rfl⟩

/-- Witness for C4 at the concrete tag `"files"`. -/
theorem fresh_request_messages_shape_witness :
    ∃ r : PromptRequest,
      build_request W0 "files" "hi" "gpt-4" (7 / 10) emptyScenarioConfig = .ok r ∧
      r.messages =
        [{ role := "system", content := r.system_prompt, tool_calls := none, tool_call_id := none },
         { role := "user", content := "hi", tool_calls := none, tool_call_id := none }] :=
  fresh_request_messages_shape W0 "files" "hi" "gpt-4" (7 / 10) emptyScenarioConfig (by decide)

/-- C7: on a text containing no recognized placeholder token (checked
case-insensitively, as the code matches), placeholder resolution returns the
text unchanged — in particular literal brace-delimited tokens outside the
recognized four-token set are left untouched on every pass — hence resolving
twice equals resolving once; and the empty (falsy) input is returned unchanged
rather than raising. -/
theorem placeholder_resolution_fixpoint (w : World) :
    (∀ t : String,
        containsCI currentDatePat.data t.data = false →
        containsCI currentDatetimePat.data t.data = false →
        containsCI isoDatetimePat.data t.data = false →
        containsCI currentUserPat.data t.data = false →
        replace_special_vars w t = t ∧
          replace_special_vars w (replace_special_vars w t) = replace_special_vars w t) ∧
    replace_special_vars w "" = "" := by
  constructor
  · intro t h1 h2 h3 h4
    have ht : replace_special_vars w t = t := by
      by_cases he : t = ""
      · simp [replace_special_vars, he]
      · simp only [replace_special_vars, if_neg he]
        rw [subCI_of_not_contains _ _ _ h1, subCI_of_not_contains _ _ _ h2,
            subCI_of_not_contains _ _ _ h3, subCI_of_not_contains _ _ _ h4]
    exact ⟨ht, by rw [ht, ht]⟩
  · rfl

/-- Witness for C7 on a text whose only brace-delimited token is outside the
recognized set. -/
theorem placeholder_resolution_fixpoint_witness :
    replace_special_vars W0 "hello \x7b\x7bsomething_else\x7d\x7d" =
      "hello \x7b\x7bsomething_else\x7d\x7d" :=
  ((placeholder_resolution_fixpoint W0).1 "hello \x7b\x7bsomething_else\x7d\x7d"
    (by decide) (by decide) (by decide) (by decide)).1

/-- The weekday convention stated by the specification, as an explicit table:
from the native zero-based-Monday numbering, Sunday maps to 0, Monday to 1,
…, Saturday to 6. -/
def sundayZeroConvention : Nat → Nat
  | 0 => 1
  | 1 => 2
  | 2 => 3
  | 3 => 4
  | 4 => 5
  | 5 => 6
  | 6 => 0
  | _ => 0

/-- The code's remap `(weekday + 1) % 7` agrees with the specification's
Sunday-is-0 table on every native weekday. -/
theorem jsWeekday_matches_convention : ∀ wd : Nat, wd < 7 → (wd + 1) % 7 = sundayZeroConvention wd := by
  intro wd h
  interval_cases wd <;> rfl

/-- C9: for every supplied moment (with a valid native weekday), the date token
is replaced by `YYYY-MM-DD (W)` and the date-time token by
`YYYY-MM-DD HH:MM:SS (W)`, where `W` is the weekday digit under the
specification's Sunday = 0 convention — i.e. the code's `(weekday + 1) % 7`
remap of the native zero-based-Monday number is the correct conversion. -/
theorem date_token_weekday_remap (w : World) (hwd : w.now.weekday < 7) :
    replace_special_vars w currentDatePat =
      strfDate w.now ++ " (" ++ natRepr (sundayZeroConvention w.now.weekday) ++ ")" ∧
    replace_special_vars w currentDatetimePat =
      strfDate w.now ++ " " ++ strfTime w.now ++ " ("
        ++ natRepr (sundayZeroConvention w.now.weekday) ++ ")" := by
  have hremap : jsWeekdayOf w.now = sundayZeroConvention w.now.weekday :=
    jsWeekday_matches_convention w.now.weekday hwd
  constructor
  · have he : ¬(currentDatePat = "") := by decide
    simp only [replace_special_vars, if_neg he]
    rw [subCI_whole currentDatePat (currentDateText w) currentDatePat rfl rfl,
        subCI_braceFree currentDatetimePat (currentDatetimeText w) (currentDateText w) rfl
          (braceFree_currentDateText w),
        subCI_braceFree isoDatetimePat (isoFormat w.now) (currentDateText w) rfl
          (braceFree_currentDateText w),
        subCI_braceFree currentUserPat w.userName (currentDateText w) rfl
          (braceFree_currentDateText w)]
    unfold currentDateText
    rw [hremap]
  · have he : ¬(currentDatetimePat = "") := by decide
    simp only [replace_special_vars, if_neg he]
    rw [subCI_of_not_contains currentDatePat (currentDateText w) currentDatetimePat (by decide),
        subCI_whole currentDatetimePat (currentDatetimeText w) currentDatetimePat rfl rfl,
        subCI_braceFree isoDatetimePat (isoFormat w.now) (currentDatetimeText w) rfl
          (braceFree_currentDatetimeText w),
        subCI_braceFree currentUserPat w.userName (currentDatetimeText w) rfl
          (braceFree_currentDatetimeText w)]
    unfold currentDatetimeText
    rw [hremap]

/-- A concrete Sunday moment (native weekday 6) for the C9 witness. -/
def W9 : World :=
  { userName := "U",
    now := { year := 2026, month := 10, day := 11, hour := 9, minute := 5,
             second := 3, microsecond := 0, weekday := 6 } }

/-- Witness for C9: on a native Sunday the rendered weekday digit is 0. -/
theorem date_token_weekday_remap_witness :
    replace_special_vars W9 currentDatePat = "2026-10-11 (0)" ∧
    replace_special_vars W9 currentDatetimePat = "2026-10-11 09:05:03 (0)" := by
  have h := date_token_weekday_remap W9 (by decide)
  exact ⟨h.1.trans (by decide), h.2.trans (by decide)⟩

/-- C1 (amended): in the formatted web-result line structure, every organic
item is immediately followed, after its numbered title header, by an anchor
line of the exact form `Anchor: turn{turn}search{index}` (the sentinel
appears as its six-character escape rendering, a backslash followed by
`ue202`), and every news/top-stories item by the same with `news{index}` in
place of `search{index}`. -/
theorem anchor_token_placement (turn : Nat) (r : WebSearchResult) :
    (∀ i (h : i < r.organic.length), ∃ pre post,
      webSearchOutputLines turn r =
        pre ++ ["# Search " ++ natRepr i ++ ": \"" ++
                  (if (r.organic.get ⟨i, h⟩).title = "" then "(no title)"
                   else (r.organic.get ⟨i, h⟩).title) ++ "\"",
                "\nAnchor: \\ue202turn" ++ natRepr turn ++ "search" ++ natRepr i] ++ post) ∧
    (∀ i (h : i < r.top_stories.length), ∃ pre post,
      webSearchOutputLines turn r =
        pre ++ ["# News " ++ natRepr i ++ ": \"" ++
                  (if (r.top_stories.get ⟨i, h⟩).title = "" then "(no title)"
                   else (r.top_stories.get ⟨i, h⟩).title) ++ "\"",
                "\nAnchor: \\ue202turn" ++ natRepr turn ++ "news" ++ natRepr i] ++ post) := by
  constructor
  · intro i h
    have hne : r.organic.isEmpty = false := by
      cases hl : r.organic with
      | nil => exact absurd h (by simp [hl])
      | cons a as => simp [hl]
    obtain ⟨u, v, hu⟩ := join_map_enumFromN (organicItemLines turn) r.organic 0 i h
    rw [Nat.zero_add] at hu
    have key : ∃ u v, webSearchOutputLines turn r =
        u ++ organicItemLines turn (i, r.organic.get ⟨i, h⟩) ++ v := by
      unfold webSearchOutputLines
      have hne' : ¬(r.organic.isEmpty = true) := by simp [hne]
      rw [if_neg hne']
      exact affix_append_right _ _ (affix_append_right _ _ (affix_append_right _ _
        (affix_append_right _ _ (affix_append_left _ _ ⟨u, v, hu⟩))))
    exact affix_pair_of_block rfl key
  · intro i h
    have hne : r.top_stories.isEmpty = false := by
      cases hl : r.top_stories with
      | nil => exact absurd h (by simp [hl])
      | cons a as => simp [hl]
    obtain ⟨u, v, hu⟩ := join_map_enumFromN (newsItemLines turn) r.top_stories 0 i h
    rw [Nat.zero_add] at hu
    have key : ∃ u v, webSearchOutputLines turn r =
        u ++ newsItemLines turn (i, r.top_stories.get ⟨i, h⟩) ++ v := by
      unfold webSearchOutputLines
      have hne' : ¬(r.top_stories.isEmpty = true) := by simp [hne]
      rw [if_neg hne']
      exact affix_append_right _ _ (affix_append_right _ _ (affix_append_right _ _
        (affix_append_left _ _ (affix_append_left _ _ ⟨u, v, hu⟩))))
    exact affix_pair_of_block rfl key

/-- A concrete result with one organic and one news item, for the C1 witness. -/
def R1 : WebSearchResult :=
  { organic := [{ title := "T", link := "http://a", snippet := "", date := "",
                  attribution := "", highlights := [] }],
    top_stories := [{ title := "N", link := "http://b", snippet := "", date := "",
                      attribution := "", highlights := [] }],
    knowledge_graph := none, answer_box := none, people_also_ask := [] }

/-- Witness for C1 on `R1` at turn 0. -/
theorem anchor_token_placement_witness :
    (∃ pre post, webSearchOutputLines 0 R1 =
      pre ++ ["# Search 0: \"T\"", "\nAnchor: \\ue202turn0search0"] ++ post) ∧
    (∃ pre post, webSearchOutputLines 0 R1 =
      pre ++ ["# News 0: \"N\"", "\nAnchor: \\ue202turn0news0"] ++ post) :=
  ⟨(anchor_token_placement 0 R1).1 0 (by decide),
   (anchor_token_placement 0 R1).2 0 (by decide)⟩

/-- A news-only concrete result for the C1 counterexample. -/
def R1c : WebSearchResult :=
  { organic := [],
    top_stories := [{ title := "N", link := "http://b", snippet := "", date := "",
                      attribution := "", highlights := [] }],
    knowledge_graph := none, answer_box := none, people_also_ask := [] }

/-- C1 counterexample: on a news-only result the claim as stated fails — the
news item's header is not followed by a `search`-form anchor (it gets a
`news`-form anchor instead), and moreover the reserved non-printable sentinel
character U+E202 itself never occurs in the formatted text (only its
six-character escape rendering does). -/
theorem news_search_anchor_counterexample :
    (¬ ∃ pre post, webSearchOutputLines 0 R1c =
        pre ++ ["# News 0: \"N\"", "\nAnchor: \\ue202turn0search0"] ++ post) ∧
    ('' ∉ (format_web_search_result W0 0 R1c).data) := by
  constructor
  · rintro ⟨pre, post, hp⟩
    have hmem : ("\nAnchor: \\ue202turn0search0" : String) ∈ webSearchOutputLines 0 R1c := by
      rw [hp]; simp
    revert hmem
    decide
  · decide
